import Mathlib

/-!  Verification of the data-normalization logic of `train_angle.py`.

The script normalizes heterogeneous task datasets into uniform
records of shape `{text1, text2, label[, condition]}`, assembles
train/validation/test partitions, and dispatches on a mode string.
We embed the loaders and the top-level control flow as pure Lean
functions over explicit row types, parameterizing over the external
data sources (hub datasets, local files) and the external embedding
library.  Scores are modelled as rationals: the only operations the
script performs on them are conversion and comparison, for which the
rationals are a faithful stand-in for IEEE floats.
-/

namespace TrainAngle

/-- Python `str.strip()`: remove leading and trailing whitespace.
Implemented by structural recursion over the character list so that it
evaluates inside the kernel. -/
def pyStrip (s : String) : String :=
  String.mk
    (((s.data.dropWhile Char.isWhitespace).reverse.dropWhile Char.isWhitespace).reverse)

/-- Worker for `pyWords`: scan the characters, accumulating the
current word reversed. -/
def pyWordsAux : List Char → List Char → List String
  | [], acc => if acc.isEmpty then [] else [String.mk acc.reverse]
  | c :: cs, acc =>
    if Char.isWhitespace c then
      if acc.isEmpty then pyWordsAux cs []
      else String.mk acc.reverse :: pyWordsAux cs []
    else pyWordsAux cs (c :: acc)

/-- Python `str.split()` with no argument: split on runs of
whitespace, dropping empty pieces. -/
def pyWords (s : String) : List String :=
  pyWordsAux s.data []

/-- A normalized record, the uniform output shape of every loader:
mirrors the Python dicts with keys `text1`, `text2`, `label`, and for
C-STS additionally `condition`. -/
structure Record where
  text1 : String
  text2 : String
  label : Rat
  condition : Option String := none
  deriving DecidableEq, Repr

/-- The keys of `TASK_MAPPING` (train_angle.py lines 58-65). -/
def taskKeys : List String :=
  ["NLI-STS", "STS-B", "MRPC", "QQP", "QNLI", "RTE"]

/-- Embeds `assert args.task in TASK_MAPPING` (line 66): a task name
outside the mapping raises, anything else passes. -/
def resolveTask (task : String) : Except String Unit :=
  if task ∈ taskKeys then Except.ok () else Except.error "AssertionError"

/-- A row of a hub dataset as consumed by `load_data` (lines 73-90).
The SetFit datasets carry `text1`/`text2` columns, the STS-B dataset
carries `sentence1`/`sentence2`; we give the row all columns the
function may read. -/
structure HubRow where
  text1 : String
  text2 : String
  sentence1 : String
  sentence2 : String
  score : Rat
  label : Int
  deriving DecidableEq, Repr

/-- The `label_mapping` of lines 79-82, used for QNLI and RTE:
source label 1 maps to 0 (not entailment), source label 0 maps to 1
(entailment), any other label passes through via the `.get` default. -/
def labelMappingQnliRte (l : Int) : Int :=
  if l = 1 then 0 else if l = 0 then 1 else l

/-- The column pair `col1, col2` selected at lines 74-77. -/
def hubCols (task : String) (obj : HubRow) : String × String :=
  if task = "MRPC" ∨ task = "QQP" ∨ task = "QNLI" ∨ task = "RTE" then
    (obj.text1, obj.text2)
  else
    (obj.sentence1, obj.sentence2)

/-- Normalization of one hub row (lines 85-89): texts from the
selected columns, label from `score` (as float) for STS-B and from the
(possibly remapped) `label` column otherwise. -/
def loadDataRow (task : String) (obj : HubRow) : Record :=
  { text1 := (hubCols task obj).1
    text2 := (hubCols task obj).2
    label :=
      if task = "STS-B" then obj.score
      else if task = "QNLI" ∨ task = "RTE" then ((labelMappingQnliRte obj.label : Int) : Rat)
      else ((obj.label : Int) : Rat) }

/-- `load_data` (lines 73-90) over one split of the hub dataset. -/
def load_data (task : String) (rows : List HubRow) : List Record :=
  rows.map (loadDataRow task)

/-- A parsed JSONL row of the distilled STS-B files read by
`load_stsb_llm.load` (lines 93-108). -/
structure LlmRow where
  sentence1 : String
  sentence2 : String
  score : Rat
  deriving DecidableEq, Repr

/-- `len(set(a.split()) - set(b.split()))`: the cardinality of the
word-set difference used by the skip-negative filter (line 105). -/
def wordSetDiffCard (a b : String) : Nat :=
  ((pyWords a).toFinset \ (pyWords b).toFinset).card

/-- The drop condition of line 105: with `skip_neg` set, a row is
skipped when its score is 0 and the word-set difference of its two
sentences has fewer than 5 elements. -/
def skipNegDrops (skip_neg : Bool) (obj : LlmRow) : Bool :=
  skip_neg && decide (obj.score = 0)
    && decide (wordSetDiffCard obj.sentence1 obj.sentence2 < 5)

/-- The inner `load` of `load_stsb_llm` (lines 94-108) over parsed,
non-blank JSONL rows. -/
def load_stsb_llm_load (skip_neg : Bool) (rows : List LlmRow) : List Record :=
  rows.filterMap (fun obj =>
    if skipNegDrops skip_neg obj then none
    else some { text1 := obj.sentence1, text2 := obj.sentence2, label := obj.score })

/-- A row of the AllNLI gzip TSV read by `load_nli_data.load_all_nli`
(lines 127-144). -/
structure NliRow where
  split : String
  label : String
  sentence1 : String
  sentence2 : String
  deriving DecidableEq, Repr

/-- The `label_mapping` dict of lines 129-133; a missing key raises a
KeyError in Python, modelled as `none`. -/
def nliLabelMapping (l : String) : Option Int :=
  if l = "entailment" then some 1
  else if l = "neutral" then some 1
  else if l = "contradiction" then some 0
  else none

/-- `load_all_nli` (lines 128-144): keeps rows whose `split` is
`train` and whose `label` is not `neutral` (the outer guard at line
138); the inner `exclude_neutral` check at lines 139-140 is embedded
as written.  An unknown label raises a KeyError. -/
def load_all_nli (exclude_neutral : Bool) : List NliRow → Except String (List Record)
  | [] => Except.ok []
  | row :: rest =>
    if row.split = "train" ∧ row.label ≠ "neutral" then
      if exclude_neutral ∧ row.label = "neutral" then
        load_all_nli exclude_neutral rest
      else
        match nliLabelMapping row.label with
        | none => Except.error "KeyError"
        | some lbl =>
          (load_all_nli exclude_neutral rest).map
            (fun d =>
              { text1 := pyStrip row.sentence1
                text2 := pyStrip row.sentence2
                label := ((lbl : Int) : Rat) } :: d)
    else
      load_all_nli exclude_neutral rest

/-- A row of one of the C-STS CSV files (lines 172-181). -/
structure CstsRow where
  sentence1 : String
  sentence2 : String
  label : Rat
  condition : String
  deriving DecidableEq, Repr

/-- The loop state of `load_csts_data.load_data` (lines 183-204):
the output list plus the two defaultdict-of-set maps and the set of
all conditions the loop populates. -/
structure CstsAcc where
  data : List Record
  sentence_condition_map : String × String → Finset String
  sentence_label_map : String × String → Finset Rat
  all_conditions : Finset String

/-- The initial loop state: empty list, empty defaultdicts, empty set. -/
def cstsInit : CstsAcc :=
  { data := []
    sentence_condition_map := fun _ => ∅
    sentence_label_map := fun _ => ∅
    all_conditions := ∅ }

/-- One iteration of the loop at lines 188-202: strip the three text
fields, record the condition and label in the per-pair sets, and
append the normalized record to the output list. -/
def cstsStep (acc : CstsAcc) (obj : CstsRow) : CstsAcc :=
  let s1 := pyStrip obj.sentence1
  let s2 := pyStrip obj.sentence2
  let cond := pyStrip obj.condition
  { data := acc.data ++
      [{ text1 := s1, text2 := s2, label := obj.label, condition := some cond }]
    sentence_condition_map := fun k =>
      if k = (s1, s2) then insert cond (acc.sentence_condition_map k)
      else acc.sentence_condition_map k
    sentence_label_map := fun k =>
      if k = (s1, s2) then insert obj.label (acc.sentence_label_map k)
      else acc.sentence_label_map k
    all_conditions := insert cond acc.all_conditions }

/-- `load_csts_data.load_data` (lines 183-204) applied to one split:
the list of normalized records it returns. -/
def load_csts_load (ds : List CstsRow) : List Record :=
  (ds.foldl cstsStep cstsInit).data

/-- Direct normalization of one C-STS row, for comparison with the
loop above. -/
def cstsNormRow (obj : CstsRow) : Record :=
  { text1 := pyStrip obj.sentence1
    text2 := pyStrip obj.sentence2
    label := obj.label
    condition := some (pyStrip obj.condition) }

/-- The key triple of a C-STS record, as used by the deduplication
claim. -/
def cstsKey (r : Record) : String × String × Option String :=
  (r.text1, r.text2, r.condition)

/-- The variable bindings of the module that the mode dispatch reads
(lines 209-238 and 288-310).  `csts_test_data` is consulted at line
298 but no statement in the file ever assigns it. -/
structure ProgState where
  train_data : Option (List Record)
  valid_data : Option (List Record)
  test_data : Option (List Record)
  csts_test_data : Option (List Record)
  deriving Repr

/-- Split loading and reassignment, lines 209-222: for `NLI-STS` the
two lists returned by `load_nli_data` become train and test and there
is no validation split; otherwise the three hub splits are loaded and,
for QQP/QNLI/RTE, `test_data` is overwritten with `valid_data`.  The
externally read data (the NLI record lists, the hub split rows) are
parameters.  No branch assigns `csts_test_data`, matching the source,
where that name is never bound. -/
def buildState (task : String) (nliTrain nliSts : List Record)
    (hubTrain hubValid hubTest : List HubRow) : ProgState :=
  if task = "NLI-STS" then
    { train_data := some nliTrain
      valid_data := none
      test_data := some nliSts
      csts_test_data := none }
  else
    let tr := load_data task hubTrain
    let v := load_data task hubValid
    let te := load_data task hubTest
    let te2 := if task = "QQP" ∨ task = "QNLI" ∨ task = "RTE" then v else te
    { train_data := some tr
      valid_data := some v
      test_data := some te2
      csts_test_data := none }

/-- Python slice `xs[:n]` for an int `n`: for nonnegative `n` the
first `n` elements, for negative `n` all but the last `-n`. -/
def pySliceTo (xs : List Record) (n : Int) : List Record :=
  if 0 ≤ n then xs.take n.toNat else xs.take (xs.length - (-n).toNat)

/-- Dataset assembly, lines 224-238: when `debug_sample_size` is set,
the train partition is sliced to its first `debug_sample_size`
elements; the validation and test partitions are wrapped unchanged. -/
def assembleDataset (debug_sample_size : Option Int) (st : ProgState) :
    Option (List Record) × Option (List Record) × Option (List Record) :=
  ( st.train_data.map (fun t =>
      match debug_sample_size with
      | some n => pySliceTo t n
      | none => t),
    st.valid_data,
    st.test_data )

/-- The outcome of the mode dispatch, abstracting the work the
external library performs in each branch. -/
inductive RunOutcome where
  | trained
  | evaluated
  | cstsTested (results : List (String × Rat))
  deriving DecidableEq, Repr

/-- The mode strings the dispatch at lines 240-312 handles. -/
def supportedModes : List String := ["train", "test", "test_csts"]

/-- The mode dispatch (lines 240-312).  The train and test branches
delegate to the external library; the `test_csts` branch iterates over
`csts_test_data`, which must be bound in the state, computing a
per-index cosine similarity (the encoding and cosine are abstracted by
`cos`); any other mode raises `ValueError: not support {mode}`. -/
def runMode (mode : String) (st : ProgState) (cos : Record → Rat) :
    Except String RunOutcome :=
  if mode = "train" then Except.ok RunOutcome.trained
  else if mode = "test" then Except.ok RunOutcome.evaluated
  else if mode = "test_csts" then
    match st.csts_test_data with
    | none => Except.error "NameError: name csts_test_data is not defined"
    | some ds =>
      Except.ok (RunOutcome.cstsTested
        (ds.enum.map (fun p => (toString p.1, cos p.2))))
  else Except.error ("not support " ++ mode)

/-- The whole run for a given configuration: the task-membership
assert, then split loading, then the mode dispatch.  (Dataset assembly
does not affect which branch is taken.) -/
def runProgram (task mode : String) (nliTrain nliSts : List Record)
    (hubTrain hubValid hubTest : List HubRow) (cos : Record → Rat) :
    Except String RunOutcome :=
  match resolveTask task with
  | Except.error e => Except.error e
  | Except.ok _ => runMode mode (buildState task nliTrain nliSts hubTrain hubValid hubTest) cos

/-! ### Helper lemmas -/

/-- The C-STS loop appends exactly one normalized record per row to
whatever the accumulator already holds; the set-valued maps it also
updates never feed back into the output list. -/
theorem csts_foldl_data (ds : List CstsRow) :
    ∀ acc : CstsAcc, (ds.foldl cstsStep acc).data = acc.data ++ ds.map cstsNormRow := by
  induction ds with
  | nil => intro acc; simp
  | cons obj rest ih =>
    intro acc
    simp only [List.foldl_cons, List.map_cons]
    rw [ih]
    simp [cstsStep, cstsNormRow, List.append_assoc]

/-- A row used by several concrete witnesses. -/
def cstsDupRow : CstsRow :=
  { sentence1 := "a", sentence2 := "b", label := 1, condition := "c" }

/-! ### Claims -/

/-- Claim C1, counterexample: the C-STS loader performs no
deduplication.  Feeding the same row twice yields two identical output
records, so two output records share the same
(text1, text2, condition) triple, contradicting the claim that the
output has exactly one record per distinct triple. -/
theorem C1_csts_dedup_counterexample :
    load_csts_load [cstsDupRow, cstsDupRow] =
      [{ text1 := "a", text2 := "b", label := 1, condition := some "c" },
       { text1 := "a", text2 := "b", label := 1, condition := some "c" }] ∧
    ¬ List.Pairwise (fun a b => cstsKey a ≠ cstsKey b)
        (load_csts_load [cstsDupRow, cstsDupRow]) := by
  constructor
  · decide
  · decide

/-- Claim C1, amended: the C-STS loader emits exactly one normalized
record per input row, in input order, duplicates included; the
condition and label sets keyed by sentence pair are populated but are
never consulted, so the output records share a
(text1, text2, condition) triple exactly when input rows repeat it. -/
theorem C1_one_record_per_row (ds : List CstsRow) :
    load_csts_load ds = ds.map cstsNormRow := by
  unfold load_csts_load
  rw [csts_foldl_data]
  simp [cstsInit]

/-- Claim C2: an unrecognized task name fails the membership assert
before anything else runs, and, for a recognized task, an unrecognized
mode string reaches the final dispatch and raises there; in both cases
the run ends in an error, never in a training or evaluation outcome. -/
theorem C2_config_errors (task mode : String) (n1 n2 : List Record)
    (tr v te : List HubRow) (cos : Record → Rat) :
    (task ∉ taskKeys →
      runProgram task mode n1 n2 tr v te cos = Except.error "AssertionError") ∧
    (task ∈ taskKeys → mode ∉ supportedModes →
      runProgram task mode n1 n2 tr v te cos = Except.error ("not support " ++ mode)) := by
  constructor
  · intro h
    unfold runProgram resolveTask
    rw [if_neg h]
  · intro ht hm
    have h1 : mode ≠ "train" := fun e => hm (by simp [supportedModes, e])
    have h2 : mode ≠ "test" := fun e => hm (by simp [supportedModes, e])
    have h3 : mode ≠ "test_csts" := fun e => hm (by simp [supportedModes, e])
    unfold runProgram resolveTask
    rw [if_pos ht]
    show runMode mode (buildState task n1 n2 tr v te) cos =
      Except.error ("not support " ++ mode)
    unfold runMode
    rw [if_neg h1, if_neg h2, if_neg h3]

/-- Claim C2, witness: the unknown task FOO trips the assert, and for
the recognized task STS-B the unknown mode bar trips the dispatch. -/
theorem C2_config_errors_witness :
    runProgram "FOO" "train" [] [] [] [] [] (fun _ => 0) =
      Except.error "AssertionError" ∧
    runProgram "STS-B" "bar" [] [] [] [] [] (fun _ => 0) =
      Except.error ("not support " ++ "bar") := by
  exact ⟨(C2_config_errors "FOO" "train" [] [] [] [] [] (fun _ => 0)).1 (by decide),
         (C2_config_errors "STS-B" "bar" [] [] [] [] [] (fun _ => 0)).2
           (by decide) (by decide)⟩

/-- Claim C3: with skip negatives enabled, the distilled STS-B loader
drops a row only when its score is 0 and the word-set difference of
its sentences has fewer than 5 elements; hence every row whose
word-set difference has at least 5 elements survives into the
output. -/
theorem C3_skip_neg_filter :
    (∀ obj : LlmRow, skipNegDrops true obj = true →
      obj.score = 0 ∧ wordSetDiffCard obj.sentence1 obj.sentence2 < 5) ∧
    (∀ (rows : List LlmRow) (obj : LlmRow), obj ∈ rows →
      5 ≤ wordSetDiffCard obj.sentence1 obj.sentence2 →
      ({ text1 := obj.sentence1, text2 := obj.sentence2, label := obj.score } : Record) ∈
        load_stsb_llm_load true rows) := by
  constructor
  · intro obj h
    simpa [skipNegDrops] using h
  · intro rows obj hmem hge
    have hdrop : skipNegDrops true obj = false := by
      simp only [skipNegDrops, Bool.true_and, Bool.and_eq_false_iff, decide_eq_false_iff_not]
      right
      omega
    simp only [load_stsb_llm_load, List.mem_filterMap]
    exact ⟨obj, hmem, by simp [hdrop]⟩

/-- Claim C3, witness: the pair with score 0 and tiny difference is
dropped with score 0 and difference below 5, while a row whose
word-set difference has 5 elements is kept. -/
theorem C3_skip_neg_filter_witness :
    ((⟨"a b", "a b", (0 : Rat)⟩ : LlmRow).score = 0 ∧
      wordSetDiffCard "a b" "a b" < 5) ∧
    ({ text1 := "a b c d e", text2 := "z", label := 0 } : Record) ∈
      load_stsb_llm_load true [⟨"a b", "a b", 0⟩, ⟨"a b c d e", "z", 0⟩] := by
  constructor
  · exact C3_skip_neg_filter.1 ⟨"a b", "a b", 0⟩ (by decide)
  · exact C3_skip_neg_filter.2 [⟨"a b", "a b", 0⟩, ⟨"a b c d e", "z", 0⟩]
      ⟨"a b c d e", "z", 0⟩ (by decide) (by decide)

/-- Claim C4: the QNLI/RTE label remap sends 1 to 0 and 0 to 1, is an
involution on the binary labels (hence a bijection on them), and is
exactly the label transform the loader applies to every QNLI and RTE
record. -/
theorem C4_qnli_rte_remap :
    labelMappingQnliRte 1 = 0 ∧ labelMappingQnliRte 0 = 1 ∧
    (∀ l : Int, l = 0 ∨ l = 1 →
      labelMappingQnliRte (labelMappingQnliRte l) = l) ∧
    (∀ (task : String) (obj : HubRow), task = "QNLI" ∨ task = "RTE" →
      (loadDataRow task obj).label = ((labelMappingQnliRte obj.label : Int) : Rat)) := by
  refine ⟨rfl, rfl, ?_, ?_⟩
  · rintro l (rfl | rfl) <;> decide
  · rintro task obj (rfl | rfl) <;> simp [loadDataRow]

/-- Claim C4, witness: the involution at label 0, and the loader
applying the remap at a concrete QNLI row with source label 1. -/
theorem C4_qnli_rte_remap_witness :
    labelMappingQnliRte (labelMappingQnliRte 0) = 0 ∧
    (loadDataRow "QNLI" ⟨"t1", "t2", "s1", "s2", 0, 1⟩).label =
      ((labelMappingQnliRte (⟨"t1", "t2", "s1", "s2", 0, 1⟩ : HubRow).label : Int) : Rat) := by
  exact ⟨C4_qnli_rte_remap.2.2.1 0 (Or.inl rfl),
         C4_qnli_rte_remap.2.2.2 "QNLI" ⟨"t1", "t2", "s1", "s2", 0, 1⟩ (Or.inl rfl)⟩


/-- Texts of the NLI loader output come from stripped source sentence
columns: whenever loading succeeds, every output record pairs the
stripped sentence1 and sentence2 of some input row. -/
theorem load_all_nli_texts (ex : Bool) :
    ∀ (rows : List NliRow) (out : List Record),
      load_all_nli ex rows = Except.ok out → ∀ r ∈ out,
      (r.text1, r.text2) ∈
        rows.map (fun o => (pyStrip o.sentence1, pyStrip o.sentence2)) := by
  intro rows
  induction rows with
  | nil =>
    intro out h r hr
    simp only [load_all_nli, Except.ok.injEq] at h
    subst h
    simp at hr
  | cons row rest ih =>
    intro out h r hr
    simp only [load_all_nli] at h
    by_cases h1 : row.split = "train" ∧ row.label ≠ "neutral"
    · rw [if_pos h1] at h
      have h2 : ¬ (ex = true ∧ row.label = "neutral") := fun hc => h1.2 hc.2
      rw [if_neg h2] at h
      cases hl : nliLabelMapping row.label with
      | none =>
        rw [hl] at h
        exact absurd h (by simp)
      | some lbl =>
        rw [hl] at h
        cases hres : load_all_nli ex rest with
        | error e =>
          rw [hres] at h
          exact absurd h (by simp [Except.map])
        | ok l =>
          rw [hres] at h
          simp only [Except.map, Except.ok.injEq] at h
          subst h
          rcases List.mem_cons.mp hr with hr1 | hr2
          · subst hr1
            simp
          · simp only [List.map_cons, List.mem_cons]
            exact Or.inr (ih l hres r hr2)
    · rw [if_neg h1] at h
      simp only [List.map_cons, List.mem_cons]
      exact Or.inr (ih out h r hr)

/-- Claim C5, counterexample: no loader checks for emptiness.  A
source row whose sentence1 is the empty string yields a normalized
record whose text1 is empty (and stays empty under stripping), so the
non-emptiness part of the invariant does not hold of the code. -/
theorem C5_empty_text_counterexample :
    (load_data "STS-B" [⟨"t1", "t2", "", "x", 3, 0⟩]).map Record.text1 = [""] ∧
    (load_csts_load [⟨" ", "x", 1, "c"⟩]).map Record.text1 = [""] := by
  constructor
  · decide
  · decide

/-- Claim C5, amended: every normalized record carries both text
fields, and they are exactly the designated source sentence columns:
verbatim for the hub and JSONL loaders, whitespace-stripped for the
NLI and C-STS loaders.  Non-emptiness after trimming is not enforced
anywhere: an empty or all-whitespace source sentence produces an empty
text field. -/
theorem C5_texts_from_source :
    (∀ (task : String) (rows : List HubRow) (r : Record), r ∈ load_data task rows →
      (r.text1, r.text2) ∈ rows.map (hubCols task)) ∧
    (∀ (sn : Bool) (rows : List LlmRow) (r : Record), r ∈ load_stsb_llm_load sn rows →
      (r.text1, r.text2) ∈ rows.map (fun o => (o.sentence1, o.sentence2))) ∧
    (∀ (ex : Bool) (rows : List NliRow) (out : List Record),
      load_all_nli ex rows = Except.ok out → ∀ r ∈ out,
      (r.text1, r.text2) ∈
        rows.map (fun o => (pyStrip o.sentence1, pyStrip o.sentence2))) ∧
    (∀ (ds : List CstsRow) (r : Record), r ∈ load_csts_load ds →
      (r.text1, r.text2) ∈
        ds.map (fun o => (pyStrip o.sentence1, pyStrip o.sentence2))) := by
  refine ⟨?_, ?_, ?_, ?_⟩
  · intro task rows r hr
    rcases List.mem_map.mp hr with ⟨obj, hobj, rfl⟩
    exact List.mem_map.mpr ⟨obj, hobj, rfl⟩
  · intro sn rows r hr
    rcases List.mem_filterMap.mp hr with ⟨obj, hobj, hf⟩
    by_cases hd : skipNegDrops sn obj
    · rw [if_pos hd] at hf
      exact absurd hf (by simp)
    · rw [if_neg hd] at hf
      have hf2 := Option.some.inj hf
      subst hf2
      exact List.mem_map.mpr ⟨obj, hobj, rfl⟩
  · exact load_all_nli_texts
  · intro ds r hr
    rw [C1_one_record_per_row] at hr
    rcases List.mem_map.mp hr with ⟨obj, hobj, rfl⟩
    exact List.mem_map.mpr ⟨obj, hobj, rfl⟩

/-- Claim C5, witness: the amended statement applied to one concrete
row of each of the four source formats. -/
theorem C5_texts_from_source_witness :
    (("a", "b") ∈ ([⟨"a", "b", "x", "y", 1, 0⟩] : List HubRow).map (hubCols "QQP")) ∧
    (("s", "t") ∈ ([⟨"s", "t", (1 : Rat)⟩] : List LlmRow).map
      (fun o => (o.sentence1, o.sentence2))) ∧
    (("p", "q") ∈ ([⟨"train", "entailment", " p ", " q "⟩] : List NliRow).map
      (fun o => (pyStrip o.sentence1, pyStrip o.sentence2))) ∧
    (("u", "v") ∈ ([⟨" u ", "v", 1, "c"⟩] : List CstsRow).map
      (fun o => (pyStrip o.sentence1, pyStrip o.sentence2))) := by
  refine ⟨?_, ?_, ?_, ?_⟩
  · exact C5_texts_from_source.1 "QQP" [⟨"a", "b", "x", "y", 1, 0⟩]
      { text1 := "a", text2 := "b", label := 0 } (by decide)
  · exact C5_texts_from_source.2.1 false [⟨"s", "t", 1⟩]
      { text1 := "s", text2 := "t", label := 1 } (by decide)
  · exact C5_texts_from_source.2.2.1 false [⟨"train", "entailment", " p ", " q "⟩]
      [{ text1 := "p", text2 := "q", label := 1 }] rfl
      { text1 := "p", text2 := "q", label := 1 } (by decide)
  · exact C5_texts_from_source.2.2.2 [⟨" u ", "v", 1, "c"⟩]
      { text1 := "u", text2 := "v", label := 1, condition := some "c" } (by decide)


/-- Claim C6: the test_csts branch reads the variable csts_test_data,
but no statement in the module ever assigns it (the function
load_csts_data that would produce it is never called), so for every
configuration the branch raises a NameError instead of terminating
normally and writing the prediction file.  This contradicts the
documented behaviour, so the code, not the claim, is at fault. -/
theorem C6_test_csts_name_error (task : String) (n1 n2 : List Record)
    (tr v te : List HubRow) (cos : Record → Rat) :
    (buildState task n1 n2 tr v te).csts_test_data = none ∧
    runMode "test_csts" (buildState task n1 n2 tr v te) cos =
      Except.error "NameError: name csts_test_data is not defined" := by
  have h : (buildState task n1 n2 tr v te).csts_test_data = none := by
    unfold buildState
    split
    · rfl
    · rfl
  refine ⟨h, ?_⟩
  unfold runMode
  rw [if_neg (by decide : ¬ ("test_csts" = "train")),
      if_neg (by decide : ¬ ("test_csts" = "test")),
      if_pos rfl, h]

/-- Claim C7, counterexample: with exclude_neutral set to false, a
train row labeled neutral is still absent from the output, because the
outer guard already requires the label to differ from neutral; the
claim that such rows are retained is false. -/
theorem C7_neutral_retained_counterexample :
    load_all_nli false [⟨"train", "neutral", "x", "y"⟩] = Except.ok [] := rfl

/-- Claim C7, amended: rows labeled neutral are always skipped by the
NLI loader, whatever the exclude_neutral flag says: the outer guard
excludes them before the flag-controlled check can run, so the loader
output is the same for any flag value and unchanged when neutral rows
are removed from the input beforehand. -/
theorem C7_neutral_always_skipped (ex : Bool) (rows : List NliRow) :
    load_all_nli ex rows =
      load_all_nli false (rows.filter (fun row => row.label ≠ "neutral")) := by
  induction rows with
  | nil => rfl
  | cons row rest ih =>
    by_cases hn : row.label = "neutral"
    · have hfilter : (row :: rest).filter (fun row => decide (row.label ≠ "neutral")) =
          rest.filter (fun row => decide (row.label ≠ "neutral")) := by
        simp [List.filter_cons, hn]
      rw [hfilter]
      have houter : ¬ (row.split = "train" ∧ row.label ≠ "neutral") :=
        fun hc => hc.2 hn
      show (if row.split = "train" ∧ row.label ≠ "neutral" then _ else load_all_nli ex rest) = _
      rw [if_neg houter]
      exact ih
    · have hfilter : (row :: rest).filter (fun row => decide (row.label ≠ "neutral")) =
          row :: rest.filter (fun row => decide (row.label ≠ "neutral")) := by
        simp [List.filter_cons, hn]
      rw [hfilter]
      show _ = (if row.split = "train" ∧ row.label ≠ "neutral" then _
        else load_all_nli false (rest.filter (fun row => decide (row.label ≠ "neutral"))))
      by_cases hs : row.split = "train"
      · have houter : row.split = "train" ∧ row.label ≠ "neutral" := ⟨hs, hn⟩
        show (if row.split = "train" ∧ row.label ≠ "neutral" then _ else _) = _
        rw [if_pos houter, if_pos houter]
        have hinner1 : ¬ (ex = true ∧ row.label = "neutral") := fun hc => hn hc.2
        have hinner2 : ¬ (false = true ∧ row.label = "neutral") := fun hc => hn hc.2
        rw [if_neg hinner1, if_neg hinner2]
        cases hl : nliLabelMapping row.label with
        | none => rfl
        | some lbl => rw [ih]
      · have houter : ¬ (row.split = "train" ∧ row.label ≠ "neutral") :=
          fun hc => hs hc.1
        show (if row.split = "train" ∧ row.label ≠ "neutral" then _ else _) = _
        rw [if_neg houter, if_neg houter]
        exact ih

/-- A hub row with an out-of-range score, used to refute the claimed
label range. -/
def stsbRowSix : HubRow :=
  { text1 := "t1", text2 := "t2", sentence1 := "s1", sentence2 := "s2",
    score := 6, label := 0 }

/-- Claim C8, counterexample: the STS-B loader copies the score
without clamping or validating, so a source row with score 6 produces
a record whose label is 6, outside the claimed range 0 to 5. -/
theorem C8_label_range_counterexample :
    (load_data "STS-B" [stsbRowSix]).map Record.label = [(6 : Rat)] ∧
    ¬ ((6 : Rat) ≤ 5) := by
  constructor
  · decide
  · decide

/-- Claim C8, amended: every STS-B record label is exactly the float
conversion of the source score; the loader enforces no range, so the
label lies in the benchmark range 0 to 5 precisely when the source
score does. -/
theorem C8_label_is_score (obj : HubRow) :
    (loadDataRow "STS-B" obj).label = obj.score ∧
    (0 ≤ obj.score → obj.score ≤ 5 →
      0 ≤ (loadDataRow "STS-B" obj).label ∧ (loadDataRow "STS-B" obj).label ≤ 5) := by
  have h : (loadDataRow "STS-B" obj).label = obj.score := by
    simp [loadDataRow]
  exact ⟨h, fun h0 h5 => ⟨h ▸ h0, h ▸ h5⟩⟩

/-- Claim C8, witness: a concrete row with score 3 gives label 3,
inside the range. -/
theorem C8_label_is_score_witness :
    (loadDataRow "STS-B" ⟨"t1", "t2", "s1", "s2", 3, 0⟩).label =
      (⟨"t1", "t2", "s1", "s2", 3, 0⟩ : HubRow).score ∧
    0 ≤ (loadDataRow "STS-B" ⟨"t1", "t2", "s1", "s2", 3, 0⟩).label ∧
    (loadDataRow "STS-B" ⟨"t1", "t2", "s1", "s2", 3, 0⟩).label ≤ 5 := by
  obtain ⟨h1, h2⟩ := C8_label_is_score ⟨"t1", "t2", "s1", "s2", 3, 0⟩
  exact ⟨h1, h2 (by decide) (by decide)⟩

/-- Claim C9: for QQP, QNLI and RTE the test partition handed to the
dataset assembler is the validation partition itself, element for
element, and the originally loaded test split no longer influences the
state. -/
theorem C9_test_is_validation (task : String) (n1 n2 : List Record)
    (tr v te : List HubRow)
    (h : task = "QQP" ∨ task = "QNLI" ∨ task = "RTE") :
    (buildState task n1 n2 tr v te).test_data =
      (buildState task n1 n2 tr v te).valid_data ∧
    (buildState task n1 n2 tr v te).test_data = some (load_data task v) ∧
    ∀ te2 : List HubRow, buildState task n1 n2 tr v te = buildState task n1 n2 tr v te2 := by
  rcases h with rfl | rfl | rfl <;>
    exact ⟨rfl, rfl, fun te2 => rfl⟩

/-- Claim C9, witness: the QQP state at concrete splits has its test
partition equal to its validation partition. -/
theorem C9_test_is_validation_witness :
    (buildState "QQP" [] [] [] [⟨"a", "b", "x", "y", 1, 0⟩] []).test_data =
      (buildState "QQP" [] [] [] [⟨"a", "b", "x", "y", 1, 0⟩] []).valid_data := by
  exact (C9_test_is_validation "QQP" [] [] [] [⟨"a", "b", "x", "y", 1, 0⟩] []
    (Or.inl rfl)).1

/-- Claim C10: with a nonnegative debug_sample_size set, dataset
assembly replaces the train partition by its first debug_sample_size
records (all of it when shorter) and passes the validation and test
partitions through unchanged. -/
theorem C10_debug_truncates_train_only (n : Int) (h : 0 ≤ n) (st : ProgState) :
    assembleDataset (some n) st =
      (st.train_data.map (fun t => t.take n.toNat), st.valid_data, st.test_data) := by
  obtain ⟨t, v2, te2, c⟩ := st
  cases t with
  | none => simp [assembleDataset]
  | some l => simp [assembleDataset, pySliceTo, h]

/-- Claim C10, witness: slicing to 1 keeps the first train record and
leaves validation and test untouched. -/
theorem C10_debug_truncates_train_only_witness :
    assembleDataset (some 1)
      { train_data := some [⟨"a", "b", 1, none⟩, ⟨"c", "d", 2, none⟩],
        valid_data := some [⟨"e", "f", 3, none⟩],
        test_data := some [⟨"g", "h", 4, none⟩],
        csts_test_data := none } =
      (some [⟨"a", "b", 1, none⟩], some [⟨"e", "f", 3, none⟩],
        some [⟨"g", "h", 4, none⟩]) := by
  rw [C10_debug_truncates_train_only 1 (by decide)]
  rfl


end TrainAngle
